import Mathlib

/-!
Verification of the `Adapter` D-Bus proxy module (`src/adapter.rs`).

The module is a thin typed client proxy around a remote BlueZ adapter
object.  We embed its pure logic shallowly: strings are Lean `String`
(a structure over `List Char`, so every operation below is structural
and kernel-evaluable), fallible operations return `Except Error`, and
the remote daemon is made explicit, either as a property store
(`DaemonState`) or as a reply-producing function passed to the
operation under scrutiny.
-/

namespace Bluer

/-- The two error kinds of the crate surfaced by this module:
transport/daemon failures and decode failures. -/
inductive Error where
  | RemoteCallError (msg : String)
  | ParseError (msg : String)
deriving DecidableEq, Repr

/-! ## String helpers

The Rust code uses `str::strip_prefix`, `str::replace('_', ":")` and
(inside `Address`'s `FromStr`) colon splitting.  We define them
structurally over `String.data` so that concrete instances reduce. -/

/-- Rust `str::strip_prefix` on character lists: drop `p` from the front of
`s` if it is a prefix, else `none`. -/
def dropPfx : List Char → List Char → Option (List Char)
  | s, [] => some s
  | [], _ :: _ => none
  | c :: s, p :: ps => if c = p then dropPfx s ps else none

/-- Rust `str::strip_prefix` for `String`. -/
def stripPfx (s p : String) : Option String :=
  (dropPfx s.data p.data).map String.mk

/-- Rust `str::replace('_', ":")`: the pattern is a single character, so the
replacement is a character map. -/
def replaceUnderscores (s : String) : String :=
  String.mk (s.data.map (fun c => if c = '_' then ':' else c))

/-- Split a character list at every `':'` (the shape of
`str::split(':')`). Always returns at least one group. -/
def splitOnColon : List Char → List (List Char)
  | [] => [[]]
  | c :: rest =>
    match splitOnColon rest with
    | [] => [[]]
    | g :: gs => if c = ':' then [] :: g :: gs else (c :: g) :: gs

/-! ## Address -/

/-- A Bluetooth hardware address: per the data model, a 6-octet
identifier with a canonical colon-separated textual form. -/
structure Address where
  octets : List Nat
deriving DecidableEq, Repr

/-- Value of one hexadecimal digit character, if it is one. -/
def hexVal (c : Char) : Option Nat :=
  if '0' ≤ c ∧ c ≤ '9' then some (c.toNat - '0'.toNat)
  else if 'a' ≤ c ∧ c ≤ 'f' then some (c.toNat - 'a'.toNat + 10)
  else if 'A' ≤ c ∧ c ≤ 'F' then some (c.toNat - 'A'.toNat + 10)
  else none

/-- One octet written as exactly two hexadecimal digits. -/
def parseOctet (g : List Char) : Option Nat :=
  match g with
  | [h, l] =>
    match hexVal h, hexVal l with
    | some hv, some lv => some (hv * 16 + lv)
    | _, _ => none
  | _ => none

/-- Modelled from the spec: `Address`'s `FromStr` is not under `src/`;
the spec defines the textual form as six colon-separated octets
("a 6-octet hardware identifier with a canonical colon-separated
textual form"). -/
def Address.parse (s : String) : Option Address :=
  let parts := splitOnColon s.data
  if parts.length = 6 then
    (parts.mapM parseOctet).map Address.mk
  else none

/-- Uppercase hexadecimal digit character for `n < 16`. -/
def hexDigitChar (n : Nat) : Char :=
  if n < 10 then Char.ofNat (48 + n) else Char.ofNat (55 + n)

/-- Two-digit hexadecimal rendering of one octet. -/
def octetHex (n : Nat) : List Char :=
  [hexDigitChar (n / 16), hexDigitChar (n % 16)]

/-- Join character-list groups with `':'` separators. -/
def joinColon : List (List Char) → List Char
  | [] => []
  | [g] => g
  | g :: g2 :: gs => g ++ ':' :: joinColon (g2 :: gs)

/-- Modelled from the spec: `Address`'s `Display` is not under `src/`;
the canonical colon-separated textual form of an address. -/
def Address.toString (a : Address) : String :=
  String.mk (joinColon (a.octets.map octetHex))

/-! ## AddressType -/

/-- Closed enum of Bluetooth address types, per the data model:
`{public, random}`. -/
inductive AddressType where
  | public
  | random
deriving DecidableEq, Repr

/-- Modelled from the spec: `AddressType`'s `FromStr` is not under
`src/`; "public" and "random" map to the two variants, any other
string fails to parse. -/
def AddressType.parse (s : String) : Option AddressType :=
  if s = "public" then some .public
  else if s = "random" then some .random
  else none

/-- Modelled from the spec: `AddressType`'s `Display` is not under
`src/`; renders the variant as its protocol string. -/
def AddressType.toString : AddressType → String
  | .public => "public"
  | .random => "random"

/-! ## Adapter identity (`Adapter::new`, `dbus_path`, `name`, `session`) -/

/-- Opaque handle to one bus connection; externally owned. -/
structure Session where
  connId : Nat
deriving DecidableEq, Repr

/-- Constant `PREFIX` from `adapter.rs`: the well-known object-path root for
adapters. -/
def PREFIX : String := "/org/bluez/"

/-- An `Adapter`: session reference, derived proxy object path, and the
adapter short name. -/
structure Adapter where
  session : Session
  path : String
  name : String
deriving DecidableEq, Repr

/-- Constructor `Adapter::new(session, name)`: path is `PREFIX + name`; pure and
total (no I/O, no failure). -/
def Adapter.new (session : Session) (name : String) : Adapter :=
  { session := session, path := PREFIX ++ name, name := name }

/-- Accessor `Adapter::dbus_path`: the proxy's object path. -/
def Adapter.dbus_path (a : Adapter) : String := a.path

/-! ## Device address enumeration (`Adapter::device_addresses`) -/

/-- Modelled from the spec: `device::INTERFACE` is declared in the
sibling `device` module, not under `src/`; "a fixed interface
identifier string" naming the device interface. -/
def deviceINTERFACE : String := "org.bluez.Device1"

/-- Rust `HashMap::contains_key` over the interface-name keys of one managed
object, modelled on the key list. -/
def containsIface : List String → String → Bool
  | [], _ => false
  | i :: rest, n => if i = n then true else containsIface rest n

/-- The loop body of `device_addresses` folded over the managed-objects
reply: strip the child path prefix, keep the entry only when the device
interface is implemented, replace underscores by colons and parse; a
parse failure aborts the whole scan. -/
def processObjects (pfx : String) : List (String × List String) → Except Error (List Address)
  | [] => .ok []
  | (path, ifaces) :: rest =>
    match stripPfx path pfx with
    | some tail =>
      if containsIface ifaces deviceINTERFACE then
        match Address.parse (replaceUnderscores tail) with
        | some a => (processObjects pfx rest).map (fun l => a :: l)
        | none => .error (.ParseError (replaceUnderscores tail))
      else processObjects pfx rest
    | none => processObjects pfx rest

/-- Scan `Adapter::device_addresses`: issue one get-managed-objects call
(whose reply, or failure, is the `reply` argument), then filter by the
prefix `dbus_path ++ "/dev_"` and the device interface, parsing each
trailing segment into an `Address`. -/
def device_addresses (a : Adapter) (reply : Except Error (List (String × List String))) :
    Except Error (List Address) :=
  match reply with
  | .error e => .error e
  | .ok objs => processObjects (a.dbus_path ++ "/dev_") objs

/-- Spec-side characterisation of one managed object's contribution to
the scan: `some addr` exactly when the path starts with the child
prefix, the device interface is implemented, and the underscore-to-colon
rewrite of the trailing segment parses. -/
def matchedAddress (pfx : String) (obj : String × List String) : Option Address :=
  match stripPfx obj.1 pfx with
  | some tail =>
    if containsIface obj.2 deviceINTERFACE then Address.parse (replaceUnderscores tail)
    else none
  | none => none

/-! ## The property sub-protocol

Every property wrapper of `adapter.rs` delegates to the generic
`get_property`/`set_property` capability of the transport.  The daemon
side of that capability is not under `src/`, so it is modelled from the
spec as a name-to-value store with daemon-side validation. -/

/-- Variant-typed property values carried by the bus: the declared
semantic types of this module's properties. -/
inductive Value where
  | str (s : String)
  | u32 (n : Nat)
  | bool (b : Bool)
  | strs (l : List String)
deriving DecidableEq, Repr

/-- The daemon's property store for one adapter object: property name
to current value. -/
def DaemonState : Type := List (String × Value)

/-- First-match lookup in the property store. -/
def lookupProp : DaemonState → String → Option Value
  | [], _ => none
  | (k, v) :: rest, n => if k = n then some v else lookupProp rest n

/-- Whether the store currently records the adapter as powered on. -/
def poweredOn (st : DaemonState) : Bool :=
  match lookupProp st "Powered" with
  | some (.bool b) => b
  | _ => false

/-- Modelled from the spec: the bus's generic get-property call; fails
with a `RemoteCallError` when the daemon has no such property
("object/interface/property not found"). -/
def get_property (st : DaemonState) (n : String) : Except Error Value :=
  match lookupProp st n with
  | some v => .ok v
  | none => .error (.RemoteCallError ("no such property: " ++ n))

/-- Modelled from the spec: the bus's generic set-property call;
"succeeds only if the daemon accepts it — e.g. setting `Discoverable`
while the adapter is powered off is rejected by the daemon". -/
def set_property (st : DaemonState) (n : String) (v : Value) : Except Error DaemonState :=
  if n = "Discoverable" ∧ poweredOn st = false then
    .error (.RemoteCallError "org.bluez.Error.NotReady")
  else .ok ((n, v) :: st)

/-- Decode a variant as a string, as the typed getters do. -/
def asString : Value → Except Error String
  | .str s => .ok s
  | _ => .error (.ParseError "expected string")

/-- Decode a variant as an unsigned 32-bit integer. -/
def asU32 : Value → Except Error Nat
  | .u32 n => .ok n
  | _ => .error (.ParseError "expected u32")

/-- Decode a variant as a boolean. -/
def asBool : Value → Except Error Bool
  | .bool b => .ok b
  | _ => .error (.ParseError "expected bool")

/-- Decode a variant as a sequence of strings. -/
def asStrings : Value → Except Error (List String)
  | .strs l => .ok l
  | _ => .error (.ParseError "expected string list")

/-! The `define_property!` expansions used by the claims.  Each getter
issues one remote get and decodes; each setter issues one remote set.
(`alias` is a reserved word in Lean, so the `alias` getter is named
`get_alias` here.) -/

/-- Getter `Adapter::alias` (for the read/write `Alias` property). -/
def get_alias (st : DaemonState) : Except Error String :=
  match get_property st "Alias" with
  | .ok v => asString v
  | .error e => .error e

/-- Setter `Adapter::set_alias`. -/
def set_alias (st : DaemonState) (v : String) : Except Error DaemonState :=
  set_property st "Alias" (.str v)

/-- Getter `Adapter::is_powered` (for the read/write `Powered`
property). -/
def is_powered (st : DaemonState) : Except Error Bool :=
  match get_property st "Powered" with
  | .ok v => asBool v
  | .error e => .error e

/-- Setter `Adapter::set_powered`. -/
def set_powered (st : DaemonState) (v : Bool) : Except Error DaemonState :=
  set_property st "Powered" (.bool v)

/-- Getter `Adapter::is_discoverable` (for the read/write
`Discoverable` property). -/
def is_discoverable (st : DaemonState) : Except Error Bool :=
  match get_property st "Discoverable" with
  | .ok v => asBool v
  | .error e => .error e

/-- Setter `Adapter::set_discoverable`. -/
def set_discoverable (st : DaemonState) (v : Bool) : Except Error DaemonState :=
  set_property st "Discoverable" (.bool v)

/-- Getter `Adapter::is_pairable` (for the read/write `Pairable`
property). -/
def is_pairable (st : DaemonState) : Except Error Bool :=
  match get_property st "Pairable" with
  | .ok v => asBool v
  | .error e => .error e

/-- Setter `Adapter::set_pairable`. -/
def set_pairable (st : DaemonState) (v : Bool) : Except Error DaemonState :=
  set_property st "Pairable" (.bool v)

/-- Getter `Adapter::pairable_timeout` (for the read/write
`PairableTimeout` property). -/
def pairable_timeout (st : DaemonState) : Except Error Nat :=
  match get_property st "PairableTimeout" with
  | .ok v => asU32 v
  | .error e => .error e

/-- Setter `Adapter::set_pairable_timeout`. -/
def set_pairable_timeout (st : DaemonState) (v : Nat) : Except Error DaemonState :=
  set_property st "PairableTimeout" (.u32 v)

/-- Getter `Adapter::discoverable_timeout` (for the read/write
`DiscoverableTimeout` property). -/
def discoverable_timeout (st : DaemonState) : Except Error Nat :=
  match get_property st "DiscoverableTimeout" with
  | .ok v => asU32 v
  | .error e => .error e

/-- Setter `Adapter::set_discoverable_timeout`. -/
def set_discoverable_timeout (st : DaemonState) (v : Nat) : Except Error DaemonState :=
  set_property st "DiscoverableTimeout" (.u32 v)

/-- Getter `Adapter::address_type`: get the `AddressType` property string and
parse it; a parse failure surfaces as a `ParseError`. -/
def address_type (st : DaemonState) : Except Error AddressType :=
  match get_property st "AddressType" with
  | .error e => .error e
  | .ok v =>
    match asString v with
    | .error e => .error e
    | .ok s =>
      match AddressType.parse s with
      | some t => .ok t
      | none => .error (.ParseError s)

/-- Getter `Adapter::address` (for the read-only `Address` property). -/
def address (st : DaemonState) : Except Error String :=
  match get_property st "Address" with
  | .ok v => asString v
  | .error e => .error e

/-- Getter `Adapter::system_name` (for the read-only `Name`
property). -/
def system_name (st : DaemonState) : Except Error String :=
  match get_property st "Name" with
  | .ok v => asString v
  | .error e => .error e

/-- Getter `Adapter::class` (for the read-only `Class` property);
`class` is a Lean keyword, so the getter is named `adapterClass`
here. -/
def adapterClass (st : DaemonState) : Except Error Nat :=
  match get_property st "Class" with
  | .ok v => asU32 v
  | .error e => .error e

/-- Getter `Adapter::is_discovering` (for the read-only `Discovering`
property). -/
def is_discovering (st : DaemonState) : Except Error Bool :=
  match get_property st "Discovering" with
  | .ok v => asBool v
  | .error e => .error e

/-- Getter `Adapter::uuids` (for the read-only `UUIDs` property). -/
def uuids (st : DaemonState) : Except Error (List String) :=
  match get_property st "UUIDs" with
  | .ok v => asStrings v
  | .error e => .error e

/-! ## Modalias -/

/-- Structured device identification per the data model: a bus-type tag
plus a vendor/product/version triple. -/
structure Modalias where
  bus : String
  vendor : Nat
  product : Nat
  version : Nat
deriving DecidableEq, Repr

/-- Read exactly four hexadecimal digits, returning their value and the
remaining characters. -/
def parseHex4 : List Char → Option (Nat × List Char)
  | h1 :: h2 :: h3 :: h4 :: rest =>
    match hexVal h1, hexVal h2, hexVal h3, hexVal h4 with
    | some a, some b, some c, some d => some ((((a * 16 + b) * 16 + c) * 16 + d), rest)
    | _, _, _, _ => none
  | _ => none

/-- Modelled from the spec: `Modalias`'s `FromStr` lives in
`bluetooth_utils`, not under `src/`; the spec gives the input form
`<bus>:v<vendor>p<product>d<version>` and requires a parse failure when
the `v`/`p`/`d` segments are missing. -/
def Modalias.parse (s : String) : Option Modalias :=
  match splitOnColon s.data with
  | [busPart, rest] =>
    match rest with
    | 'v' :: r1 =>
      match parseHex4 r1 with
      | some (vendor, 'p' :: r2) =>
        match parseHex4 r2 with
        | some (product, 'd' :: r3) =>
          match parseHex4 r3 with
          | some (version, []) => some ⟨String.mk busPart, vendor, product, version⟩
          | _ => none
        | _ => none
      | _ => none
    | _ => none
  | _ => none

/-- Getter `Adapter::modalias`: get the `Modalias` property string and
parse it; a parse failure surfaces as a `ParseError`. -/
def modalias (st : DaemonState) : Except Error Modalias :=
  match get_property st "Modalias" with
  | .error e => .error e
  | .ok v =>
    match asString v with
    | .error e => .error e
    | .ok s =>
      match Modalias.parse s with
      | some m => .ok m
      | none => .error (.ParseError s)

/-! ## The per-getter error contract -/

/-- Conversion of a property reply into the declared `AddressType`
semantic type: decode the variant as a string and parse it, surfacing
an unparsable string as a `ParseError`. -/
def parseAddressTypeValue (v : Value) : Except Error AddressType :=
  match asString v with
  | .error e => .error e
  | .ok s =>
    match AddressType.parse s with
    | some t => .ok t
    | none => .error (.ParseError s)

/-- Conversion of a property reply into the declared `Modalias`
semantic type: decode the variant as a string and parse it, surfacing
an unparsable string as a `ParseError`. -/
def parseModaliasValue (v : Value) : Except Error Modalias :=
  match asString v with
  | .error e => .error e
  | .ok s =>
    match Modalias.parse s with
    | some m => .ok m
    | none => .error (.ParseError s)

/-- Common shape of every property getter in this module: one remote
get, then conversion of the reply into the declared semantic type. -/
def wrapperGet {α : Type} (n : String) (conv : Value → Except Error α)
    (st : DaemonState) : Except Error α :=
  match get_property st n with
  | .ok v => conv v
  | .error e => .error e

/-- Spec-side contract, in the claim's words, of one property getter
`G` for property `n` with declared-type conversion `conv`: `G` fails
with a `RemoteCallError` exactly when the underlying bus call fails
(and with the same error); it fails with a `ParseError` exactly when
the bus call succeeded but the returned value cannot be converted (the
third clause gives the converse: on a successful bus reply the getter
returns exactly the conversion's result). -/
def getter_bus_error_contract {α : Type} (n : String)
    (G : DaemonState → Except Error α) (conv : Value → Except Error α) : Prop :=
  ∀ st : DaemonState,
    (∀ m, G st = .error (.RemoteCallError m) ↔
      get_property st n = .error (.RemoteCallError m))
    ∧ (∀ m, G st = .error (.ParseError m) →
        ∃ v, get_property st n = .ok v ∧ conv v = .error (.ParseError m))
    ∧ ∀ v, get_property st n = .ok v → G st = conv v

/-! ## Remote procedures -/

/-- One outgoing method call on the adapter interface: method name and
its (path-valued) arguments. -/
structure MethodCall where
  method : String
  args : List String
deriving DecidableEq, Repr

/-- The single call issued by `Adapter::remove_device`: method
`RemoveDevice` with the given device path as its one argument, passed
through without local validation. -/
def remove_device_call (device : String) : MethodCall :=
  { method := "RemoveDevice", args := [device] }

/-- Method `Adapter::remove_device`: issue the removal call and map a
successful unit reply to `()`; any daemon failure propagates. -/
def remove_device (device : String) (daemon : MethodCall → Except Error Unit) :
    Except Error Unit :=
  match daemon (remove_device_call device) with
  | .ok _ => .ok ()
  | .error e => .error e

/-- The filter map built by `Adapter::connect_device`: the mandatory
`Address` entry, then `AddressType` only when the caller supplied
one. -/
def connect_device_filter (address : Address) (address_type : Option AddressType) :
    List (String × String) :=
  match address_type with
  | some t => [("Address", address.toString), ("AddressType", t.toString)]
  | none => [("Address", address.toString)]

/-- Method `Adapter::connect_device`: send the filter map with the
`ConnectDevice` call and return the object path from the daemon's
reply on success. -/
def connect_device (address : Address) (address_type : Option AddressType)
    (daemon : List (String × String) → Except Error String) : Except Error String :=
  match daemon (connect_device_filter address address_type) with
  | .ok path => .ok path
  | .error e => .error e

/-! ## Device handles (`Adapter::device`) -/

/-- Modelled from the spec: the sibling `Device` proxy is not under
`src/`; per the glossary it is "a remote Bluetooth peer object, child
of an adapter in the object namespace, keyed by hardware address", so
a handle holds the session, the adapter name, and the address. -/
structure Device where
  session : Session
  adapterName : String
  address : Address
deriving DecidableEq, Repr

/-- Modelled from the spec: `Device::new`, pure local construction of a
device handle. -/
def Device.new (session : Session) (adapterName : String) (address : Address) : Device :=
  { session := session, adapterName := adapterName, address := address }

/-- Method `Adapter::device`: build the device handle for an address from this
adapter's session and name; purely local, no remote call. -/
def Adapter.device (a : Adapter) (address : Address) : Device :=
  Device.new a.session a.name address

/-- Association-list lookup for the outgoing connect filter map. -/
def lookupStr : List (String × String) → String → Option String
  | [], _ => none
  | (k, v) :: rest, n => if k = n then some v else lookupStr rest n

/-! ## Theorems -/

/-- A successful scan result is exactly the in-order `filterMap` of the
managed-objects reply through `matchedAddress`. -/
theorem processObjects_ok (pfx : String) :
    ∀ (objs : List (String × List String)) (l : List Address),
      processObjects pfx objs = .ok l → l = objs.filterMap (matchedAddress pfx) := by
  intro objs
  induction objs with
  | nil =>
    intro l h
    simp only [processObjects] at h
    exact (Except.ok.inj h).symm
  | cons head rest ih =>
    obtain ⟨path, ifaces⟩ := head
    intro l h
    simp only [processObjects] at h
    split at h
    next tail hs =>
      split at h
      next hc =>
        split at h
        next a ha =>
          cases hrest : processObjects pfx rest with
          | error e => rw [hrest] at h; simp [Except.map] at h
          | ok l2 =>
            rw [hrest] at h
            simp only [Except.map, Except.ok.injEq] at h
            rw [← h, ih l2 hrest]
            simp [List.filterMap_cons, matchedAddress, hs, hc, ha]
        next ha => simp at h
      next hc =>
        rw [ih l h]
        simp [List.filterMap_cons, matchedAddress, hs, hc]
    next hs =>
      rw [ih l h]
      simp [List.filterMap_cons, matchedAddress, hs]

/-- A matched entry whose rewritten trailing segment does not parse
forces the whole fold into an error. -/
theorem processObjects_err (pfx : String) :
    ∀ objs : List (String × List String),
      (∃ pr, pr ∈ objs ∧ ∃ tail, stripPfx pr.1 pfx = some tail ∧
        containsIface pr.2 deviceINTERFACE = true ∧
        Address.parse (replaceUnderscores tail) = none) →
      ∃ e, processObjects pfx objs = .error e := by
  intro objs
  induction objs with
  | nil => rintro ⟨pr, hmem, _⟩; exact absurd hmem (List.not_mem_nil pr)
  | cons head rest ih =>
    rintro ⟨pr, hmem, tail, hs, hc, hp⟩
    obtain ⟨path, ifaces⟩ := head
    rcases List.mem_cons.mp hmem with heq | hmem2
    · subst heq
      refine ⟨.ParseError (replaceUnderscores tail), ?_⟩
      simp [processObjects, hs, hc, hp]
    · obtain ⟨e, he⟩ := ih ⟨pr, hmem2, tail, hs, hc, hp⟩
      simp only [processObjects]
      split
      next tl hsh =>
        split
        next hch =>
          split
          next a hah => exact ⟨e, by rw [he]; rfl⟩
          next hah => exact ⟨_, rfl⟩
        next hch => exact ⟨e, he⟩
      next hsh => exact ⟨e, he⟩

/-- C1: `device_addresses` yields an address for an object path if and
only if the path starts with the adapter path followed by `/dev_` and
the object implements the device interface, the trailing segment being
parsed after replacing underscores by colons; on the spec's two-path
reply the result is exactly the one address `AA:BB:CC:DD:EE:FF`. -/
theorem c1_device_addresses_scan :
    (device_addresses (Adapter.new ⟨0⟩ "hci0")
      (.ok [("/org/bluez/hci0/dev_AA_BB_CC_DD_EE_FF", [deviceINTERFACE]),
            ("/org/bluez/hci0/unrelated_obj", [])])
      = .ok [Address.mk [0xAA, 0xBB, 0xCC, 0xDD, 0xEE, 0xFF]])
    ∧ ∀ (ad : Adapter) (objs : List (String × List String)) (l : List Address),
        device_addresses ad (.ok objs) = .ok l →
        ∀ a : Address,
          a ∈ l ↔ ∃ pr, pr ∈ objs ∧ matchedAddress (ad.dbus_path ++ "/dev_") pr = some a := by
  constructor
  · rfl
  · intro ad objs l h a
    rw [processObjects_ok _ objs l h]
    simp [List.mem_filterMap]

/-- Witness for C1 at the spec's concrete reply. -/
theorem c1_device_addresses_scan_witness :
    Address.mk [0xAA, 0xBB, 0xCC, 0xDD, 0xEE, 0xFF] ∈
        [Address.mk [0xAA, 0xBB, 0xCC, 0xDD, 0xEE, 0xFF]] ↔
      ∃ pr, pr ∈ [("/org/bluez/hci0/dev_AA_BB_CC_DD_EE_FF", [deviceINTERFACE]),
                  ("/org/bluez/hci0/unrelated_obj", ([] : List String))] ∧
        matchedAddress ((Adapter.new ⟨0⟩ "hci0").dbus_path ++ "/dev_") pr =
          some (Address.mk [0xAA, 0xBB, 0xCC, 0xDD, 0xEE, 0xFF]) :=
  c1_device_addresses_scan.2 (Adapter.new ⟨0⟩ "hci0")
    [("/org/bluez/hci0/dev_AA_BB_CC_DD_EE_FF", [deviceINTERFACE]),
     ("/org/bluez/hci0/unrelated_obj", [])]
    [Address.mk [0xAA, 0xBB, 0xCC, 0xDD, 0xEE, 0xFF]] rfl
    (Address.mk [0xAA, 0xBB, 0xCC, 0xDD, 0xEE, 0xFF])

/-- C2: the scan is all-or-nothing — one matched path whose rewritten
trailing segment fails to parse makes the whole call an error, and no
partial address list is returned. -/
theorem c2_scan_all_or_nothing (ad : Adapter) (objs : List (String × List String))
    (hbad : ∃ pr, pr ∈ objs ∧ ∃ tail,
      stripPfx pr.1 (ad.dbus_path ++ "/dev_") = some tail ∧
      containsIface pr.2 deviceINTERFACE = true ∧
      Address.parse (replaceUnderscores tail) = none) :
    (∃ e, device_addresses ad (.ok objs) = .error e)
    ∧ ∀ l : List Address, device_addresses ad (.ok objs) ≠ .ok l := by
  obtain ⟨e, he⟩ := processObjects_err (ad.dbus_path ++ "/dev_") objs hbad
  have hd : device_addresses ad (.ok objs) = .error e := he
  exact ⟨⟨e, hd⟩, fun l h => by rw [hd] at h; exact Except.noConfusion h⟩

/-- Witness for C2: a matched child path whose trailing segment `XY` is
not an address. -/
theorem c2_scan_all_or_nothing_witness :
    (∃ e, device_addresses (Adapter.new ⟨0⟩ "hci0")
        (.ok [("/org/bluez/hci0/dev_XY", [deviceINTERFACE])]) = .error e)
    ∧ ∀ l : List Address,
        device_addresses (Adapter.new ⟨0⟩ "hci0")
          (.ok [("/org/bluez/hci0/dev_XY", [deviceINTERFACE])]) ≠ .ok l :=
  c2_scan_all_or_nothing (Adapter.new ⟨0⟩ "hci0")
    [("/org/bluez/hci0/dev_XY", [deviceINTERFACE])]
    ⟨("/org/bluez/hci0/dev_XY", [deviceINTERFACE]),
      List.mem_singleton_self _, "XY", rfl, rfl, rfl⟩

/-- C8: a successful scan presents addresses in exactly the order in
which the managed-objects reply presents the matching paths — the
result is the order-preserving `filterMap` of the reply, with no
sorting or reordering. -/
theorem c8_scan_preserves_reply_order (ad : Adapter) (objs : List (String × List String))
    (l : List Address) (h : device_addresses ad (.ok objs) = .ok l) :
    l = objs.filterMap (matchedAddress (ad.dbus_path ++ "/dev_")) :=
  processObjects_ok _ objs l h

/-- Witness for C8: two device paths come back in reply order. -/
theorem c8_scan_preserves_reply_order_witness :
    [Address.mk [0xAA, 0xBB, 0xCC, 0xDD, 0xEE, 0xFF],
     Address.mk [0x00, 0x11, 0x22, 0x33, 0x44, 0x55]] =
      List.filterMap (matchedAddress ((Adapter.new ⟨0⟩ "hci0").dbus_path ++ "/dev_"))
        [("/org/bluez/hci0/dev_AA_BB_CC_DD_EE_FF", [deviceINTERFACE]),
         ("/org/bluez/hci0/dev_00_11_22_33_44_55", [deviceINTERFACE])] :=
  c8_scan_preserves_reply_order (Adapter.new ⟨0⟩ "hci0")
    [("/org/bluez/hci0/dev_AA_BB_CC_DD_EE_FF", [deviceINTERFACE]),
     ("/org/bluez/hci0/dev_00_11_22_33_44_55", [deviceINTERFACE])]
    [Address.mk [0xAA, 0xBB, 0xCC, 0xDD, 0xEE, 0xFF],
     Address.mk [0x00, 0x11, 0x22, 0x33, 0x44, 0x55]] rfl

/-- C3: the connect filter always maps `Address` to the address's
string form, maps `AddressType` to the supplied type's string form
exactly when one is supplied, carries no other keys, and on a
successful daemon reply `connect_device` returns the replied object
path. -/
theorem c3_connect_device_filter (a : Address) (t : Option AddressType) :
    lookupStr (connect_device_filter a t) "Address" = some a.toString
    ∧ lookupStr (connect_device_filter a t) "AddressType" = t.map AddressType.toString
    ∧ (∀ k v, (k, v) ∈ connect_device_filter a t → k = "Address" ∨ k = "AddressType")
    ∧ ∀ (daemon : List (String × String) → Except Error String) (path : String),
        daemon (connect_device_filter a t) = .ok path →
        connect_device a t daemon = .ok path := by
  refine ⟨?_, ?_, ?_, ?_⟩
  · cases t <;> rfl
  · cases t <;> rfl
  · intro k v hm
    cases t with
    | none => exact Or.inl (congrArg Prod.fst (List.mem_singleton.mp hm))
    | some ty =>
      rcases List.mem_cons.mp hm with h | h
      · exact Or.inl (congrArg Prod.fst h)
      · exact Or.inr (congrArg Prod.fst (List.mem_singleton.mp h))
  · intro daemon path h
    simp [connect_device, h]

/-- Witness for C3 with a supplied address type and a daemon that
replies with a device path. -/
theorem c3_connect_device_filter_witness :
    lookupStr (connect_device_filter (Address.mk [0, 0, 0, 0, 0, 0])
        (some AddressType.public)) "AddressType" = some "public"
    ∧ connect_device (Address.mk [0, 0, 0, 0, 0, 0]) (some AddressType.public)
        (fun _ => .ok "/org/bluez/hci0/dev_00_00_00_00_00_00")
        = .ok "/org/bluez/hci0/dev_00_00_00_00_00_00"
    ∧ ("Address" = "Address" ∨ "Address" = "AddressType") :=
  ⟨(c3_connect_device_filter (Address.mk [0, 0, 0, 0, 0, 0]) (some AddressType.public)).2.1,
   (c3_connect_device_filter (Address.mk [0, 0, 0, 0, 0, 0]) (some AddressType.public)).2.2.2
     (fun _ => .ok "/org/bluez/hci0/dev_00_00_00_00_00_00")
     "/org/bluez/hci0/dev_00_00_00_00_00_00" rfl,
   (c3_connect_device_filter (Address.mk [0, 0, 0, 0, 0, 0]) (some AddressType.public)).2.2.1
     "Address" (Address.mk [0, 0, 0, 0, 0, 0]).toString (List.mem_cons_self _ _)⟩

/-- The modelled bus get fails only with transport errors. -/
theorem get_property_error_is_remote (st : DaemonState) (n : String) (e : Error)
    (h : get_property st n = .error e) : ∃ m, e = .RemoteCallError m := by
  unfold get_property at h
  split at h
  · simp at h
  · exact ⟨_, (Except.error.inj h).symm⟩

/-- String decoding never produces a transport error. -/
theorem asString_no_remote (v : Value) (m : String) :
    asString v ≠ .error (.RemoteCallError m) := by
  cases v <;> simp [asString]

/-- Integer decoding never produces a transport error. -/
theorem asU32_no_remote (v : Value) (m : String) :
    asU32 v ≠ .error (.RemoteCallError m) := by
  cases v <;> simp [asU32]

/-- Boolean decoding never produces a transport error. -/
theorem asBool_no_remote (v : Value) (m : String) :
    asBool v ≠ .error (.RemoteCallError m) := by
  cases v <;> simp [asBool]

/-- String-sequence decoding never produces a transport error. -/
theorem asStrings_no_remote (v : Value) (m : String) :
    asStrings v ≠ .error (.RemoteCallError m) := by
  cases v <;> simp [asStrings]

/-- Conversion to `AddressType` never produces a transport error. -/
theorem parseAddressTypeValue_no_remote (v : Value) (m : String) :
    parseAddressTypeValue v ≠ .error (.RemoteCallError m) := by
  cases v with
  | str s =>
    simp only [parseAddressTypeValue, asString]
    cases AddressType.parse s <;> simp
  | u32 n => simp [parseAddressTypeValue, asString]
  | bool b => simp [parseAddressTypeValue, asString]
  | strs l => simp [parseAddressTypeValue, asString]

/-- Conversion to `Modalias` never produces a transport error. -/
theorem parseModaliasValue_no_remote (v : Value) (m : String) :
    parseModaliasValue v ≠ .error (.RemoteCallError m) := by
  cases v with
  | str s =>
    simp only [parseModaliasValue, asString]
    cases Modalias.parse s <;> simp
  | u32 n => simp [parseModaliasValue, asString]
  | bool b => simp [parseModaliasValue, asString]
  | strs l => simp [parseModaliasValue, asString]

/-- Every getter of the one-get-then-convert shape satisfies the error
contract, provided its conversion never fabricates a transport
error. -/
theorem wrapper_contract {α : Type} (n : String) (conv : Value → Except Error α)
    (G : DaemonState → Except Error α)
    (hG : ∀ st, G st = wrapperGet n conv st)
    (hconv : ∀ v m, conv v ≠ .error (.RemoteCallError m)) :
    getter_bus_error_contract n G conv := by
  unfold getter_bus_error_contract
  intro st
  rw [hG st]
  unfold wrapperGet
  cases hgp : get_property st n with
  | error e =>
    obtain ⟨m0, hm0⟩ := get_property_error_is_remote st n e hgp
    subst hm0
    exact ⟨fun m => by simp, fun m h => by simp at h, fun v h => by simp at h⟩
  | ok v =>
    refine ⟨fun m => iff_of_false (hconv v m) (by simp),
      fun m h => ⟨v, rfl, h⟩, fun v2 h => ?_⟩
    exact congrArg conv (Except.ok.inj h)

/-- The `address_type` getter is one get followed by the `AddressType`
conversion. -/
theorem address_type_wrapper :
    ∀ st, address_type st = wrapperGet "AddressType" parseAddressTypeValue st := by
  intro st
  unfold address_type wrapperGet parseAddressTypeValue
  cases get_property st "AddressType" with
  | error e => rfl
  | ok v => cases v <;> rfl

/-- The `modalias` getter is one get followed by the `Modalias`
conversion. -/
theorem modalias_wrapper :
    ∀ st, modalias st = wrapperGet "Modalias" parseModaliasValue st := by
  intro st
  unfold modalias wrapperGet parseModaliasValue
  cases get_property st "Modalias" with
  | error e => rfl
  | ok v => cases v <;> rfl

/-- C4: every property getter of the module satisfies the error-class
contract — it fails with a `RemoteCallError` exactly when the
underlying bus call fails and with a `ParseError` exactly when the bus
call succeeds but the returned value cannot be converted into the
declared semantic type; in particular `address_type` maps the reply
strings "public" and "random" to their variants and yields a
`ParseError` for any other reply string, and `modalias` decodes the
spec's example string and rejects one with missing segments. -/
theorem c4_property_error_classes (st : DaemonState) (s : String) :
    getter_bus_error_contract "Address" address asString
    ∧ getter_bus_error_contract "AddressType" address_type parseAddressTypeValue
    ∧ getter_bus_error_contract "Name" system_name asString
    ∧ getter_bus_error_contract "Alias" get_alias asString
    ∧ getter_bus_error_contract "Class" adapterClass asU32
    ∧ getter_bus_error_contract "Powered" is_powered asBool
    ∧ getter_bus_error_contract "Discoverable" is_discoverable asBool
    ∧ getter_bus_error_contract "Pairable" is_pairable asBool
    ∧ getter_bus_error_contract "PairableTimeout" pairable_timeout asU32
    ∧ getter_bus_error_contract "DiscoverableTimeout" discoverable_timeout asU32
    ∧ getter_bus_error_contract "Discovering" is_discovering asBool
    ∧ getter_bus_error_contract "UUIDs" uuids asStrings
    ∧ getter_bus_error_contract "Modalias" modalias parseModaliasValue
    ∧ address_type (("AddressType", Value.str "public") :: st) = .ok AddressType.public
    ∧ address_type (("AddressType", Value.str "random") :: st) = .ok AddressType.random
    ∧ (s ≠ "public" → s ≠ "random" →
        address_type (("AddressType", Value.str s) :: st) = .error (.ParseError s))
    ∧ modalias (("Modalias", Value.str "usb:v1D6Bp0246d053F") :: st)
        = .ok (Modalias.mk "usb" 0x1D6B 0x0246 0x053F)
    ∧ modalias (("Modalias", Value.str "usb:v1D6B") :: st)
        = .error (.ParseError "usb:v1D6B") := by
  refine ⟨?_, ?_, ?_, ?_, ?_, ?_, ?_, ?_, ?_, ?_, ?_, ?_, ?_, rfl, rfl, ?_, rfl, rfl⟩
  · exact wrapper_contract "Address" asString address (fun _ => rfl) asString_no_remote
  · exact wrapper_contract "AddressType" parseAddressTypeValue address_type
      address_type_wrapper parseAddressTypeValue_no_remote
  · exact wrapper_contract "Name" asString system_name (fun _ => rfl) asString_no_remote
  · exact wrapper_contract "Alias" asString get_alias (fun _ => rfl) asString_no_remote
  · exact wrapper_contract "Class" asU32 adapterClass (fun _ => rfl) asU32_no_remote
  · exact wrapper_contract "Powered" asBool is_powered (fun _ => rfl) asBool_no_remote
  · exact wrapper_contract "Discoverable" asBool is_discoverable (fun _ => rfl) asBool_no_remote
  · exact wrapper_contract "Pairable" asBool is_pairable (fun _ => rfl) asBool_no_remote
  · exact wrapper_contract "PairableTimeout" asU32 pairable_timeout (fun _ => rfl) asU32_no_remote
  · exact wrapper_contract "DiscoverableTimeout" asU32 discoverable_timeout
      (fun _ => rfl) asU32_no_remote
  · exact wrapper_contract "Discovering" asBool is_discovering (fun _ => rfl) asBool_no_remote
  · exact wrapper_contract "UUIDs" asStrings uuids (fun _ => rfl) asStrings_no_remote
  · exact wrapper_contract "Modalias" parseModaliasValue modalias
      modalias_wrapper parseModaliasValue_no_remote
  · intro h1 h2
    simp [address_type, get_property, lookupProp, asString, AddressType.parse, h1, h2]

/-- Witness for C4: the contract and particulars exercised at concrete
stores — a "public" reply, an unparsable "latin" reply, a missing
property, the spec's modalias string, a malformed modalias string, and
a wrongly typed `Powered` value. -/
theorem c4_property_error_classes_witness :
    address_type [("AddressType", Value.str "public")] = .ok AddressType.public
    ∧ address_type [("AddressType", Value.str "latin")] = .error (.ParseError "latin")
    ∧ (address_type ([] : DaemonState)
          = .error (.RemoteCallError "no such property: AddressType") ↔
        get_property ([] : DaemonState) "AddressType"
          = .error (.RemoteCallError "no such property: AddressType"))
    ∧ modalias [("Modalias", Value.str "usb:v1D6Bp0246d053F")]
        = .ok (Modalias.mk "usb" 0x1D6B 0x0246 0x053F)
    ∧ (∃ v, get_property [("Modalias", Value.str "usb:x")] "Modalias" = .ok v ∧
        parseModaliasValue v = .error (.ParseError "usb:x"))
    ∧ is_powered [("Powered", Value.str "yes")] = .error (.ParseError "expected bool") := by
  obtain ⟨hAddr, hAT, hName, hAlias, hClass, hPow, hDisc, hPair, hPT, hDT, hDing, hUU,
    hMod, hPub, hRand, hOther, hModOk, hModBad⟩ := c4_property_error_classes [] "latin"
  refine ⟨hPub, hOther (by decide) (by decide), (hAT []).1 "no such property: AddressType",
    hModOk, (hMod [("Modalias", Value.str "usb:x")]).2.1 "usb:x" rfl, ?_⟩
  exact ((hPow [("Powered", Value.str "yes")]).2.2 (Value.str "yes") rfl).trans rfl

/-- C5: `Adapter.new` is pure and total; the derived object path is the
fixed `/org/bluez/` root followed by the name, the name accessor
returns the construction name, and equal constructor inputs give equal
derived paths. -/
theorem c5_new_pure_path (s : Session) (n : String) :
    (Adapter.new s n).dbus_path = PREFIX ++ n
    ∧ (Adapter.new s n).name = n
    ∧ (Adapter.new s n).session = s
    ∧ ∀ (s2 : Session) (n2 : String), s2 = s → n2 = n →
        (Adapter.new s2 n2).dbus_path = (Adapter.new s n).dbus_path :=
  ⟨rfl, rfl, rfl, fun _ _ hs hn => by rw [hs, hn]⟩

/-- Witness for C5 at the adapter name `hci0`. -/
theorem c5_new_pure_path_witness :
    (Adapter.new ⟨0⟩ "hci0").dbus_path = PREFIX ++ "hci0"
    ∧ (Adapter.new ⟨0⟩ "hci0").dbus_path = (Adapter.new ⟨0⟩ "hci0").dbus_path :=
  ⟨(c5_new_pure_path ⟨0⟩ "hci0").1,
   (c5_new_pure_path ⟨0⟩ "hci0").2.2.2 ⟨0⟩ "hci0" rfl rfl⟩

/-- A set-property call that the daemon accepts stores the value under
the property name. -/
theorem set_property_ok {st st2 : DaemonState} {n : String} {v : Value}
    (h : set_property st n v = .ok st2) : st2 = (n, v) :: st := by
  unfold set_property at h
  split at h
  · simp at h
  · exact (Except.ok.inj h).symm

/-- C6: for every read/write property, a set of `v` accepted by the
daemon followed by a get of the same property returns `v` (the daemon
store is mutated only by the set between the two calls). -/
theorem c6_set_then_get
    (st stA stP stD stPr stPt stDt : DaemonState) (s : String)
    (b1 b2 b3 : Bool) (n1 n2 : Nat) :
    (set_alias st s = .ok stA → get_alias stA = .ok s)
    ∧ (set_powered st b1 = .ok stP → is_powered stP = .ok b1)
    ∧ (set_discoverable st b2 = .ok stD → is_discoverable stD = .ok b2)
    ∧ (set_pairable st b3 = .ok stPr → is_pairable stPr = .ok b3)
    ∧ (set_pairable_timeout st n1 = .ok stPt → pairable_timeout stPt = .ok n1)
    ∧ (set_discoverable_timeout st n2 = .ok stDt → discoverable_timeout stDt = .ok n2) :=
  ⟨fun h => by rw [set_property_ok h]; rfl,
   fun h => by rw [set_property_ok h]; rfl,
   fun h => by rw [set_property_ok h]; rfl,
   fun h => by rw [set_property_ok h]; rfl,
   fun h => by rw [set_property_ok h]; rfl,
   fun h => by rw [set_property_ok h]; rfl⟩

/-- Witness for C6 on a powered-on store, so that every set (including
`Discoverable`) is accepted. -/
theorem c6_set_then_get_witness :
    get_alias [("Alias", Value.str "x"), ("Powered", Value.bool true)] = .ok "x"
    ∧ is_powered [("Powered", Value.bool false), ("Powered", Value.bool true)] = .ok false
    ∧ is_discoverable [("Discoverable", Value.bool true), ("Powered", Value.bool true)] = .ok true
    ∧ is_pairable [("Pairable", Value.bool true), ("Powered", Value.bool true)] = .ok true
    ∧ pairable_timeout [("PairableTimeout", Value.u32 0), ("Powered", Value.bool true)] = .ok 0
    ∧ discoverable_timeout
        [("DiscoverableTimeout", Value.u32 180), ("Powered", Value.bool true)] = .ok 180 := by
  obtain ⟨h1, h2, h3, h4, h5, h6⟩ := c6_set_then_get
    [("Powered", Value.bool true)]
    [("Alias", Value.str "x"), ("Powered", Value.bool true)]
    [("Powered", Value.bool false), ("Powered", Value.bool true)]
    [("Discoverable", Value.bool true), ("Powered", Value.bool true)]
    [("Pairable", Value.bool true), ("Powered", Value.bool true)]
    [("PairableTimeout", Value.u32 0), ("Powered", Value.bool true)]
    [("DiscoverableTimeout", Value.u32 180), ("Powered", Value.bool true)]
    "x" false true true 0 180
  exact ⟨h1 rfl, h2 rfl, h3 rfl, h4 rfl, h5 rfl, h6 rfl⟩

/-- C7: while the store reports the adapter unpowered,
`set_discoverable true` surfaces the daemon's rejection as a
`RemoteCallError`, and the wrapper performs no local pre-validation —
it always delegates to the remote set-property call. -/
theorem c7_discoverable_requires_power (st : DaemonState)
    (h : is_powered st = .ok false) :
    set_discoverable st true = .error (.RemoteCallError "org.bluez.Error.NotReady")
    ∧ ∀ v, set_discoverable st v = set_property st "Discoverable" (Value.bool v) := by
  have hp : poweredOn st = false := by
    cases hl : lookupProp st "Powered" with
    | none => simp [is_powered, get_property, hl] at h
    | some v =>
      cases v with
      | str s => simp [is_powered, get_property, hl, asBool] at h
      | u32 n => simp [is_powered, get_property, hl, asBool] at h
      | bool b =>
        simp [is_powered, get_property, hl, asBool] at h
        simp [poweredOn, hl, h]
      | strs l => simp [is_powered, get_property, hl, asBool] at h
  exact ⟨by simp [set_discoverable, set_property, hp], fun _ => rfl⟩

/-- Witness for C7 on a store with `Powered = false`. -/
theorem c7_discoverable_requires_power_witness :
    set_discoverable [("Powered", Value.bool false)] true
      = .error (.RemoteCallError "org.bluez.Error.NotReady")
    ∧ set_discoverable [("Powered", Value.bool false)] true
      = set_property [("Powered", Value.bool false)] "Discoverable" (Value.bool true) :=
  ⟨(c7_discoverable_requires_power [("Powered", Value.bool false)] rfl).1,
   (c7_discoverable_requires_power [("Powered", Value.bool false)] rfl).2 true⟩

/-- C9: `remove_device` issues exactly one `RemoveDevice` call carrying
the given path unvalidated, returns unit on a successful reply,
propagates any daemon error (in particular the unknown-device
rejection), and its result depends only on the daemon's answer to that
single call. -/
theorem c9_remove_device_one_call (device : String)
    (daemon : MethodCall → Except Error Unit) :
    (remove_device_call device).method = "RemoveDevice"
    ∧ (remove_device_call device).args = [device]
    ∧ (daemon (remove_device_call device) = .ok () → remove_device device daemon = .ok ())
    ∧ (∀ e, daemon (remove_device_call device) = .error e →
        remove_device device daemon = .error e)
    ∧ ∀ d2 : MethodCall → Except Error Unit,
        daemon (remove_device_call device) = d2 (remove_device_call device) →
        remove_device device daemon = remove_device device d2 :=
  ⟨rfl, rfl,
   fun h => by simp [remove_device, h],
   fun e h => by simp [remove_device, h],
   fun d2 h => by simp [remove_device, h]⟩

/-- Witness for C9: a daemon that rejects the path as unknown, and one
that accepts it. -/
theorem c9_remove_device_one_call_witness :
    remove_device "/org/bluez/hci0/dev_00_00_00_00_00_00"
      (fun _ => .error (.RemoteCallError "org.bluez.Error.DoesNotExist"))
      = .error (.RemoteCallError "org.bluez.Error.DoesNotExist")
    ∧ remove_device "x" (fun _ => .ok ()) = .ok ()
    ∧ remove_device "x" (fun _ => .ok ())
      = remove_device "x" (fun _ => .ok ()) :=
  ⟨(c9_remove_device_one_call "/org/bluez/hci0/dev_00_00_00_00_00_00"
      (fun _ => .error (.RemoteCallError "org.bluez.Error.DoesNotExist"))).2.2.2.1
      (.RemoteCallError "org.bluez.Error.DoesNotExist") rfl,
   (c9_remove_device_one_call "x" (fun _ => .ok ())).2.2.1 rfl,
   (c9_remove_device_one_call "x" (fun _ => .ok ())).2.2.2.2 (fun _ => .ok ()) rfl⟩

/-- C10: `Adapter::device` builds the device handle purely locally from
this adapter's session and name, binds the requested address, and reads
but never changes the adapter's own fields; being a total function of
the adapter and address, it issues no remote call and cannot fail. -/
theorem c10_device_local_construction (ad : Adapter) (a : Address) :
    ad.device a = Device.new ad.session ad.name a
    ∧ (ad.device a).session = ad.session
    ∧ (ad.device a).adapterName = ad.name
    ∧ (ad.device a).address = a :=
  ⟨rfl, rfl, rfl, rfl⟩

end Bluer
